import Mathlib

/-!
Verification of the Medx-AI HER2 image pipeline core.

This file gives a shallow embedding, in Lean 4, of the algorithmic core of
the Medx-AI repository:

* the medical-image validation pipeline
  (`backend/apps/ai/services/image_validator.py`: `check_whitespace`,
  `check_blur`, `check_stain_profile`, `check_histogram_similarity`,
  `MedicalImageValidator.validate`),
* the risk scorer and entropy computation
  (`backend/apps/ai/services/her2_predictor.py`:
  `HER2Predictor._calculate_risk_score`, `_calculate_entropy`),
* the feature extractor
  (`SimpleFeatureExtractor.extract_features_from_pil`, duplicated in
  `backend/Her2/model_safety.py` inside `safe_predict`),
* the uncertainty stage of `backend/Her2/model_safety.py` (`safe_predict`),
* the lazy model-loading state machine (`HER2Predictor._load_model`),
* the orchestration fragment of `backend/apps/ai/views.py` that runs the
  validator and only then the predictor.

Exact rational arithmetic (`ℚ`) stands in for Python floats wherever the
code only adds, multiplies, divides and compares; `ℝ` with `Real.log` and
`Real.sqrt` is used where the code calls `np.log` / `np.std`.  Library
calls that are opaque to the repository (OpenCV colour conversion,
histogram computation, `cv2.compareHist`, float `repr`) enter the model as
explicit parameters or as fields of the decoded-image record, holding the
values those library calls produced.
-/

namespace MedxAI

/-! ### Decimal formatting helpers

Models CPython `format` of a float with `.Nf` / `.N%` specifiers
(round-half-even on the scaled value).  Used to build the exact reason
strings of the validator.  For the bare `{threshold}` interpolations the
code only ever receives one-decimal thresholds (20.0, 0.5), for which
`fmtFixed1` coincides with Python `str`.
-/

/-- Round half to even on a rational, as CPython format does on the scaled value. -/
def rndHE (q : ℚ) : ℤ :=
  let f : ℤ := ⌊q⌋
  let r : ℚ := q - (f : ℚ)
  if r < 1/2 then f
  else if 1/2 < r then f + 1
  else if f % 2 = 0 then f else f + 1

/-- Left-pad a digit string with zeros to width `d`. -/
def padZeros (d : ℕ) (s : String) : String :=
  String.mk (List.replicate (d - s.length) '0') ++ s

/-- Format `q` with `d` digits after the decimal point (Python `.df`). -/
def fmtFixed (d : ℕ) (q : ℚ) : String :=
  let scaled : ℤ := rndHE (q * (10 ^ d : ℕ))
  let sign : String := if scaled < 0 then "-" else ""
  let n : ℕ := scaled.natAbs
  let ip : ℕ := n / 10 ^ d
  let fp : ℕ := n % 10 ^ d
  if d = 0 then sign ++ toString ip
  else sign ++ toString ip ++ "." ++ padZeros d (toString fp)

/-- Python `.1%` formatting. -/
def fmtPercent1 (q : ℚ) : String := fmtFixed 1 (q * 100) ++ "%"

/-- Python `.0%` formatting. -/
def fmtPercent0 (q : ℚ) : String := fmtFixed 0 (q * 100) ++ "%"

/-! ### Risk scorer (`HER2Predictor._calculate_risk_score`) -/

/-- The four HER2 classes, in the index order `HER2_CLASSES` of
`her2_predictor.py` (0 ↦ HER2_0, 1 ↦ HER2_1+, 2 ↦ HER2_2+, 3 ↦ HER2_3+). -/
inductive HER2Class
  | her2_0
  | her2_1p
  | her2_2p
  | her2_3p
deriving DecidableEq

/-- `HER2_CLASSES` display names. -/
def className : HER2Class → String
  | .her2_0 => "HER2_0"
  | .her2_1p => "HER2_1+"
  | .her2_2p => "HER2_2+"
  | .her2_3p => "HER2_3+"

/-- `RISK_LEVELS` lookup of `her2_predictor.py`. -/
def riskLevel : HER2Class → String
  | .her2_0 => "low"
  | .her2_1p => "medium"
  | .her2_2p => "high"
  | .her2_3p => "critical"

/-- `BASE_RISK_SCORES` of `her2_predictor.py`. -/
def baseRiskScore : HER2Class → ℚ
  | .her2_0 => 15
  | .her2_1p => 35
  | .her2_2p => 65
  | .her2_3p => 90

/-- `risk_weights = np.array([0, 0.1, 0.3, 0.5])` in `_calculate_risk_score`. -/
def riskWeights : List ℚ := [0, 1/10, 3/10, 1/2]

/-- `HER2Predictor._calculate_risk_score`: base score for the predicted
class, plus `(confidence - 0.5) * 20`, plus
`np.sum(probabilities * risk_weights) * 20`, clamped by
`max(0, min(100, risk_score))`. -/
def calculate_risk_score (predictedClass : HER2Class) (confidence : ℚ)
    (probabilities : List ℚ) : ℚ :=
  let base_score := baseRiskScore predictedClass
  let confidence_adjustment := (confidence - 1/2) * 20
  let probability_contribution :=
    (List.zipWith (· * ·) probabilities riskWeights).sum * 20
  let risk_score := base_score + confidence_adjustment + probability_contribution
  max 0 (min 100 risk_score)

/-- Severity order on HER2 classes, as used by the spec (`HER2_0 < HER2_1+ <
HER2_2+ < HER2_3+`). -/
def severityIdx : HER2Class → ℕ
  | .her2_0 => 0
  | .her2_1p => 1
  | .her2_2p => 2
  | .her2_3p => 3

/-- Clamping to `[0,100]` is monotone. -/
lemma clamp_mono {x y : ℚ} (h : x ≤ y) :
    max 0 (min 100 x) ≤ max 0 (min 100 y) :=
  max_le_max le_rfl (min_le_min le_rfl h)

/-- C1: the risk score returned by `_calculate_risk_score` on class `c`,
confidence `conf` and the 4-element probability vector `[p0,p1,p2,p3]`
equals `base(c) + (conf - 0.5)*20 + 20*(0*p0 + 0.1*p1 + 0.3*p2 + 0.5*p3)`
clamped to `[0,100]`, and in particular always lies in `[0,100]`.  Bases:
HER2_0 ↦ 15, HER2_1+ ↦ 35, HER2_2+ ↦ 65, HER2_3+ ↦ 90. -/
theorem risk_score_formula (c : HER2Class) (conf p0 p1 p2 p3 : ℚ) :
    calculate_risk_score c conf [p0, p1, p2, p3]
      = max 0 (min 100 (baseRiskScore c + (conf - 1/2) * 20
          + 20 * (0 * p0 + (1/10) * p1 + (3/10) * p2 + (1/2) * p3)))
    ∧ 0 ≤ calculate_risk_score c conf [p0, p1, p2, p3]
    ∧ calculate_risk_score c conf [p0, p1, p2, p3] ≤ 100 := by
  refine ⟨?_, ?_, ?_⟩
  · unfold calculate_risk_score riskWeights
    simp only [List.zipWith, List.sum_cons, List.sum_nil]
    ring_nf
  · exact le_max_left 0 _
  · exact max_le (by norm_num) (min_le_left 100 _)

/-- C9: for fixed confidence and probability vector, the risk score is
monotonically non-decreasing in predicted-class severity order
HER2_0 ≤ HER2_1+ ≤ HER2_2+ ≤ HER2_3+. -/
theorem risk_score_monotone (conf p0 p1 p2 p3 : ℚ) :
    calculate_risk_score .her2_0 conf [p0, p1, p2, p3]
      ≤ calculate_risk_score .her2_1p conf [p0, p1, p2, p3]
    ∧ calculate_risk_score .her2_1p conf [p0, p1, p2, p3]
      ≤ calculate_risk_score .her2_2p conf [p0, p1, p2, p3]
    ∧ calculate_risk_score .her2_2p conf [p0, p1, p2, p3]
      ≤ calculate_risk_score .her2_3p conf [p0, p1, p2, p3] := by
  unfold calculate_risk_score
  refine ⟨clamp_mono ?_, clamp_mono ?_, clamp_mono ?_⟩ <;>
    simp only [baseRiskScore] <;> linarith

/-! ### Decoded image and validator configuration

`MedicalImageValidator.validate` first decodes the file with PIL and
converts it with OpenCV.  The decoded image enters the model as a record
holding what those library calls produce: the dimensions, the grayscale
buffer (`cv2.cvtColor(..., COLOR_BGR2GRAY)`), the per-pixel HSV triples
(`cv2.cvtColor(..., COLOR_BGR2HSV)`, hue on the 0–180 scale), and the
flattened normalized HSV histogram (`compute_histogram`).  The reference
corpus and `cv2.compareHist` are likewise passed in explicitly.
-/

/-- One HSV pixel as produced by OpenCV (`h` in 0–180, `s`,`v` in 0–255). -/
structure HSVPixel where
  h : ℕ
  s : ℕ
  v : ℕ
deriving DecidableEq

/-- The decoded image: dimensions plus the library-produced buffers. -/
structure DecodedImage where
  width : ℕ
  height : ℕ
  gray : List (List ℕ)
  hsv : List HSVPixel
  hist : List ℚ

/-- `MedicalImageValidator.DEFAULT_CONFIG` threshold names. -/
structure ValidatorConfig where
  whitespace_thresh : ℚ
  blur_thresh : ℚ
  stain_thresh : ℚ
  hist_thresh : ℚ
  entropy_thresh : ℚ

/-- `MedicalImageValidator.DEFAULT_CONFIG` of `image_validator.py`. -/
def DEFAULT_CONFIG : ValidatorConfig :=
  { whitespace_thresh := 95/100
    blur_thresh := 20
    stain_thresh := 2/100
    hist_thresh := 1/2
    entropy_thresh := 5/2 }

def MIN_WIDTH : ℕ := 100
def MIN_HEIGHT : ℕ := 100
def MAX_WIDTH : ℕ := 100000
def MAX_HEIGHT : ℕ := 100000

/-! ### The individual checks of `image_validator.py` -/

/-- `check_whitespace`: count grayscale pixels strictly above
`white_pixel_val` (220) over the whole buffer; reject when the ratio
exceeds `threshold`. -/
def check_whitespace (gray : List (List ℕ)) (threshold : ℚ)
    (white_pixel_val : ℕ := 220) : Bool × Option String :=
  let flat := gray.flatten
  let white_pixels : ℕ := flat.countP (fun px => px > white_pixel_val)
  let total_pixels : ℕ := flat.length
  let ratio : ℚ := (white_pixels : ℚ) / (total_pixels : ℚ)
  if ratio > threshold then
    (true, some ("Too much whitespace (" ++ fmtPercent1 ratio ++ " > "
      ++ fmtPercent0 threshold ++ ")"))
  else (false, none)

/-- BORDER_REFLECT_101 index reflection used by `cv2.Laplacian` at the
image border (valid for kernel radius 1 on images with n ≥ 2). -/
def reflect101 (n : ℕ) (i : ℤ) : ℕ :=
  (if i < 0 then -i else if i ≥ (n : ℤ) then 2 * ((n : ℤ) - 1) - i else i).toNat

/-- Pixel access with BORDER_REFLECT_101 semantics. -/
def grayAt (g : List (List ℕ)) (rows cols : ℕ) (i j : ℤ) : ℤ :=
  ((g.getD (reflect101 rows i) []).getD (reflect101 cols j) 0 : ℕ)

/-- `cv2.Laplacian(gray, cv2.CV_64F)` with the default aperture: the 3×3
kernel `[[0,1,0],[1,-4,1],[0,1,0]]` under BORDER_REFLECT_101. -/
def laplacianValues (g : List (List ℕ)) : List ℤ :=
  let rows := g.length
  let cols := (g.getD 0 []).length
  (List.range rows).flatMap fun i =>
    (List.range cols).map fun j =>
      grayAt g rows cols ((i : ℤ) + 1) j + grayAt g rows cols ((i : ℤ) - 1) j
        + grayAt g rows cols i ((j : ℤ) + 1) + grayAt g rows cols i ((j : ℤ) - 1)
        - 4 * grayAt g rows cols i j

/-- `np.ndarray.var()` (population variance) of the Laplacian response. -/
def laplacianVariance (g : List (List ℕ)) : ℚ :=
  let vals : List ℚ := (laplacianValues g).map (fun v => (v : ℚ))
  let n : ℚ := (vals.length : ℚ)
  let mean := vals.sum / n
  ((vals.map (fun v => (v - mean) ^ 2)).sum) / n

/-- `check_blur`: reject when the Laplacian variance is strictly below
`threshold`. -/
def check_blur (gray : List (List ℕ)) (threshold : ℚ) : Bool × Option String :=
  let variance := laplacianVariance gray
  if variance < threshold then
    (true, some ("Image is blurry (Score: " ++ fmtFixed 1 variance ++ " < "
      ++ fmtFixed 1 threshold ++ ")"))
  else (false, none)

/-- The per-pixel predicate of `check_stain_profile`: valid colour
(`S > 30` and `V < 235`) and hue in the hematoxylin band `(100,170)` or
the DAB band `[0,25) ∪ (160,180]`. -/
def stainPixel (p : HSVPixel) : Bool :=
  decide ((30 < p.s ∧ p.v < 235)
    ∧ ((100 < p.h ∧ p.h < 170) ∨ (p.h < 25 ∨ 160 < p.h)))

/-- Stain coverage ratio of `check_stain_profile`:
`count(valid-colour AND stain-hue) / total_pixels`. -/
def stainRatio (hsv : List HSVPixel) : ℚ :=
  ((hsv.countP stainPixel : ℕ) : ℚ) / ((hsv.length : ℕ) : ℚ)

/-- `check_stain_profile`: reject when the stain coverage ratio is strictly
below `min_stain_coverage`. -/
def check_stain_profile (hsv : List HSVPixel) (min_stain_coverage : ℚ) :
    Bool × Option String :=
  let ratio := stainRatio hsv
  if ratio < min_stain_coverage then
    (true, some ("No stain detected (Coverage: " ++ fmtPercent1 ratio ++ " < "
      ++ fmtPercent0 min_stain_coverage ++ ")"))
  else (false, none)

/-- `check_histogram_similarity`: a no-op when the reference corpus is
absent or empty; otherwise fold the correlation scores with the code's
`max_score = -1.0` seed and reject when the maximum stays strictly below
`threshold`.  `cmp` stands for `cv2.compareHist(·, ·, HISTCMP_CORREL)`. -/
def check_histogram_similarity (cmp : List ℚ → List ℚ → ℚ)
    (references : Option (List (List ℚ))) (target_hist : List ℚ)
    (threshold : ℚ) : Bool × Option String :=
  match references with
  | none => (false, none)
  | some refs =>
    if refs.length = 0 then (false, none)
    else
      let max_score : ℚ := refs.foldl
        (fun m r => if cmp target_hist r > m then cmp target_hist r else m) (-1)
      if max_score < threshold then
        (true, some ("Image content does not match training data (Similarity: "
          ++ fmtFixed 2 max_score ++ " < " ++ fmtFixed 1 threshold ++ ")"))
      else (false, none)

/-! ### `MedicalImageValidator.validate` -/

/-- One entry of the `checks` mapping (`passed`, optional `reason`,
optional `value`). -/
structure CheckEntry where
  passed : Bool
  reason : Option String := none
  value : Option String := none
deriving DecidableEq

/-- The validation report returned by `validate`. -/
structure ValidationReport where
  is_valid : Bool
  status : String
  reason : Option String
  confidence : ℚ
  checks : List (String × CheckEntry)
deriving DecidableEq

/-- Gate evaluation order of `MedicalImageValidator.validate`. -/
def gateOrder : List String :=
  ["dimensions", "whitespace", "blur", "stain_profile", "histogram_similarity"]

/-- `MedicalImageValidator.validate`: dimension bounds, then whitespace,
blur, stain-profile and histogram-similarity checks in order, each
short-circuiting to a rejected report.  The `checks` mapping is built
incrementally exactly as in the code (note: a dimension failure returns
with `checks` still empty). -/
def validate (cmp : List ℚ → List ℚ → ℚ) (references : Option (List (List ℚ)))
    (img : DecodedImage) (cfg : ValidatorConfig) : ValidationReport :=
  if img.width < MIN_WIDTH ∨ img.height < MIN_HEIGHT then
    { is_valid := false, status := "rejected"
      reason := some ("Image too small (" ++ toString img.width ++ "x"
        ++ toString img.height ++ "). Minimum: " ++ toString MIN_WIDTH ++ "x"
        ++ toString MIN_HEIGHT)
      confidence := 0, checks := [] }
  else if img.width > MAX_WIDTH ∨ img.height > MAX_HEIGHT then
    { is_valid := false, status := "rejected"
      reason := some ("Image too large (" ++ toString img.width ++ "x"
        ++ toString img.height ++ "). Maximum: " ++ toString MAX_WIDTH ++ "x"
        ++ toString MAX_HEIGHT)
      confidence := 0, checks := [] }
  else
    let dimsValue : String := toString img.width ++ "x" ++ toString img.height
    let checks1 : List (String × CheckEntry) :=
      [("dimensions", { passed := true, value := some dimsValue })]
    let ws := check_whitespace img.gray cfg.whitespace_thresh
    let checks2 := checks1 ++ [("whitespace", { passed := !ws.1, reason := ws.2 })]
    if ws.1 then
      { is_valid := false, status := "rejected", reason := ws.2
        confidence := 0, checks := checks2 }
    else
      let bl := check_blur img.gray cfg.blur_thresh
      let checks3 := checks2 ++ [("blur", { passed := !bl.1, reason := bl.2 })]
      if bl.1 then
        { is_valid := false, status := "rejected", reason := bl.2
          confidence := 0, checks := checks3 }
      else
        let st := check_stain_profile img.hsv cfg.stain_thresh
        let checks4 := checks3 ++ [("stain_profile", { passed := !st.1, reason := st.2 })]
        if st.1 then
          { is_valid := false, status := "rejected", reason := st.2
            confidence := 0, checks := checks4 }
        else
          let hs := check_histogram_similarity cmp references img.hist cfg.hist_thresh
          let checks5 := checks4 ++
            [("histogram_similarity", { passed := !hs.1, reason := hs.2 })]
          if hs.1 then
            { is_valid := false, status := "rejected", reason := hs.2
              confidence := 0, checks := checks5 }
          else
            { is_valid := true, status := "valid", reason := none
              confidence := 1, checks := checks5 }

/-- The response of the `predict` view for the validation/prediction part. -/
inductive PredictResponse (α : Type)
  | badRequest (error : String) (details : ValidationReport)
  | ok (result : α)

/-- The orchestration fragment of `HER2PredictionViewSet.predict`
(`views.py`): run the validator, and only when `is_valid` call
`predictor.predict` (modelled by `predictFn`).  The boolean records
whether the predictor (feature extraction + classification) ran. -/
def views_predict {α : Type} (cmp : List ℚ → List ℚ → ℚ)
    (references : Option (List (List ℚ))) (img : DecodedImage)
    (cfg : ValidatorConfig) (predictFn : DecodedImage → α) :
    PredictResponse α × Bool :=
  let v := validate cmp references img cfg
  if v.is_valid then (.ok (predictFn img), true)
  else (.badRequest (v.reason.getD "Invalid medical image") v, false)

/-! ### Entropy and the uncertainty stage of `safe_predict`
(`backend/Her2/model_safety.py`)

The gates of `safe_predict` reuse the check functions above.  The part
after the classifier has produced its probability vector — entropy
computation and the `Unknown`/`Success` decision — is embedded here over
`ℝ`, since `np.log` is the natural logarithm.  `fmt` abstracts Python
float formatting inside the reason string (no claim inspects it).
-/

/-- `calculate_entropy` of `model_safety.py` (and
`HER2Predictor._calculate_entropy`): `-np.sum(probs * np.log(probs + 1e-10))`. -/
noncomputable def calculate_entropy (probs : List ℝ) : ℝ :=
  -((probs.map (fun p => p * Real.log (p + 1e-10))).sum)

/-- `int(np.argmax(probs))`: index of the first maximal element. -/
noncomputable def argmaxIdx (probs : List ℝ) : ℕ :=
  (probs.foldl
    (fun acc p => if p > acc.2.2 then (acc.1 + 1, acc.1, p) else (acc.1 + 1, acc.2))
    (1, 0, probs.getD 0 0)).2.1

/-- `float(np.max(probs))`. -/
noncomputable def listMax (probs : List ℝ) : ℝ :=
  probs.foldl max (probs.getD 0 0)

/-- The result dictionary of `safe_predict`; absent dictionary keys are
`none`. -/
structure SafeOutcome where
  status : String
  reason : Option String
  prediction : Option String
  confidence : Option ℝ
  entropy : Option ℝ
  probabilities : Option (List ℝ)
  features : Option (List ℝ)

/-- The tail of `safe_predict` after `probs = model.predict_proba(...)[0]`:
compute the arg-max class, the confidence and the entropy, then return the
`Unknown` dictionary when `entropy > entropy_thresh` (probabilities and
entropy still included, prediction and confidence keys absent) and the
`Success` dictionary otherwise. -/
noncomputable def safe_predict_tail (fmt : ℝ → String) (class_names : List String)
    (feats : List ℝ) (probs : List ℝ) (entropy_thresh : ℝ) : SafeOutcome :=
  let pred_idx := argmaxIdx probs
  let pred_label := class_names.getD pred_idx ""
  let confidence := listMax probs
  let entropy := calculate_entropy probs
  if entropy > entropy_thresh then
    { status := "Unknown"
      reason := some ("High Uncertainty (Entropy: " ++ fmt entropy ++ " > "
        ++ fmt entropy_thresh ++ ")")
      prediction := none, confidence := none
      entropy := some entropy, probabilities := some probs, features := none }
  else
    { status := "Success", reason := none
      prediction := some pred_label, confidence := some confidence
      entropy := some entropy, probabilities := some probs
      features := some feats }

/-! ### Lazy model loading (`HER2Predictor._load_model`)

`_load_model` returns immediately when `self._model_data` is already set;
otherwise it probes the artifact path, raising `FileNotFoundError` when it
is absent.  When present, `joblib.load` may itself raise (state stays
unset), or produce a dictionary missing the `model`/`scaler` keys — in
which case `self._model_data` HAS already been assigned before the
`KeyError` is raised.  The environment models the artifact; the state is
`none` (unset) or `some raw` with `raw : Option M` (`none` = loaded but
malformed, `some d` = well-formed). -/

inductive LoadError
  | fileNotFound
  | keyError
  | loadFailed
deriving DecidableEq

/-- The process environment seen by `_load_model`: whether the artifact
file exists, and what `joblib.load` would produce (`none` = it raises,
`some none` = loads but lacks the expected keys, `some (some d)` = good). -/
structure LoadEnv (M : Type) where
  artifactExists : Bool
  joblibResult : Option (Option M)

/-- One call of `_load_model` on state `st` (the current value of
`self._model_data`): returns the new state, whether a load was attempted
(i.e. the early `if self._model_data is not None: return` was NOT taken),
and the error raised, if any. -/
def load_model {M : Type} (env : LoadEnv M) (st : Option (Option M)) :
    Option (Option M) × Bool × Option LoadError :=
  match st with
  | some d => (some d, false, none)
  | none =>
    if env.artifactExists then
      match env.joblibResult with
      | none => (none, true, some .loadFailed)
      | some none => (some none, true, some .keyError)
      | some (some d) => (some (some d), true, none)
    else
      (none, true, some .fileNotFound)

/-! ### Feature extraction
(`SimpleFeatureExtractor.extract_features_from_pil` in
`her2_predictor.py`, duplicated inside `safe_predict` of
`model_safety.py`)

The image is the `H×W×3` uint8 array `np.array(pil_img.convert('RGB'))`,
modelled as a list of rows of RGB triples.  All statistics except the
standard deviations are exact rationals; `np.std` is
`Real.sqrt` of the population variance.
-/

/-- Mean of a list of rationals (`np.mean`). -/
def listMeanQ (xs : List ℚ) : ℚ := xs.sum / (xs.length : ℚ)

/-- Population variance (`np.var`, which `np.std` takes the root of). -/
def listVarQ (xs : List ℚ) : ℚ :=
  ((xs.map (fun x => (x - listMeanQ xs) ^ 2)).sum) / (xs.length : ℚ)

/-- `np.std`: square root of the population variance. -/
noncomputable def listStd (xs : List ℚ) : ℝ := Real.sqrt ((listVarQ xs : ℚ) : ℝ)

/-- `np.median`: middle of the sorted data, or the average of the two
middle elements when the length is even. -/
def listMedian (xs : List ℚ) : ℚ :=
  let s := xs.insertionSort (· ≤ ·)
  let n := xs.length
  if n % 2 = 1 then s.getD (n / 2) 0
  else (s.getD (n / 2 - 1) 0 + s.getD (n / 2) 0) / 2

/-- `np.percentile` with the default linear interpolation: virtual
position `(n-1)·q/100` in the sorted data, linearly interpolated between
the two neighbouring elements. -/
def listPercentile (q : ℚ) (xs : List ℚ) : ℚ :=
  let s := xs.insertionSort (· ≤ ·)
  let n := xs.length
  let pos : ℚ := ((n : ℚ) - 1) * q / 100
  let i : ℕ := (⌊pos⌋).toNat
  let frac : ℚ := pos - (i : ℚ)
  s.getD i 0 + frac * (s.getD (i + 1) 0 - s.getD i 0)

/-- Channel selector: `img_array[:, :, c]`. -/
def chanProj (c : ℕ) (px : ℕ × ℕ × ℕ) : ℕ :=
  match c with
  | 0 => px.1
  | 1 => px.2.1
  | _ => px.2.2

/-- The flattened data of colour channel `c`. -/
def chanData (img : List (List (ℕ × ℕ × ℕ))) (c : ℕ) : List ℚ :=
  img.flatten.map (fun px => ((chanProj c px : ℕ) : ℚ))

/-- `gray_img = np.mean(img_array, axis=2)`: per-pixel channel mean. -/
def grayImg (img : List (List (ℕ × ℕ × ℕ))) : List (List ℚ) :=
  img.map (fun row => row.map (fun px => ((px.1 + px.2.1 + px.2.2 : ℕ) : ℚ) / 3))

/-- Element access in a rational matrix. -/
def qAt (g : List (List ℚ)) (i j : ℕ) : ℚ := (g.getD i []).getD j 0

/-- `np.gradient(gray_img)[0]` (along axis 0): one-sided differences at the
first and last row, central differences inside.  Faithful to numpy for
matrices with at least 2 rows. -/
def gradAxis0 (g : List (List ℚ)) : List ℚ :=
  let rows := g.length
  let cols := (g.getD 0 []).length
  (List.range rows).flatMap fun i =>
    (List.range cols).map fun j =>
      if i = 0 then qAt g 1 j - qAt g 0 j
      else if i = rows - 1 then qAt g i j - qAt g (i - 1) j
      else (qAt g (i + 1) j - qAt g (i - 1) j) / 2

/-- `np.gradient(gray_img)[1]` (along axis 1), analogously. -/
def gradAxis1 (g : List (List ℚ)) : List ℚ :=
  let rows := g.length
  let cols := (g.getD 0 []).length
  (List.range rows).flatMap fun i =>
    (List.range cols).map fun j =>
      if j = 0 then qAt g i 1 - qAt g i 0
      else if j = cols - 1 then qAt g i j - qAt g i (j - 1)
      else (qAt g i (j + 1) - qAt g i (j - 1)) / 2

/-- `np.mean(np.abs(...))`. -/
def listMeanAbs (xs : List ℚ) : ℚ := listMeanQ (xs.map (fun x => |x|))

/-- The five per-channel statistics, in source order. -/
noncomputable def channelStats (img : List (List (ℕ × ℕ × ℕ))) (c : ℕ) : List ℝ :=
  [((listMeanQ (chanData img c) : ℚ) : ℝ),
   listStd (chanData img c),
   ((listMedian (chanData img c) : ℚ) : ℝ),
   ((listPercentile 25 (chanData img c) : ℚ) : ℝ),
   ((listPercentile 75 (chanData img c) : ℚ) : ℝ)]

/-- `SimpleFeatureExtractor.extract_features_from_pil`: for each channel in
`range(3)` the five colour statistics, then the four grayscale/texture
features, exactly in the order the loop appends them. -/
noncomputable def extract_features_from_pil (img : List (List (ℕ × ℕ × ℕ))) : List ℝ :=
  (List.range 3).flatMap (channelStats img) ++
    [((listMeanQ (grayImg img).flatten : ℚ) : ℝ),
     listStd (grayImg img).flatten,
     ((listMeanAbs (gradAxis0 (grayImg img)) : ℚ) : ℝ),
     ((listMeanAbs (gradAxis1 (grayImg img)) : ℚ) : ℝ)]

/-- The 19 features written out one by one in the contract order of the
spec: per channel 0,1,2 — mean, standard deviation, median, 25th
percentile, 75th percentile; then grayscale mean, grayscale standard
deviation, mean absolute gradient along axis 0 (the code's "horizontal
variation"), mean absolute gradient along axis 1 ("vertical variation"). -/
noncomputable def featureContractList (img : List (List (ℕ × ℕ × ℕ))) : List ℝ :=
  [((listMeanQ (chanData img 0) : ℚ) : ℝ),
   listStd (chanData img 0),
   ((listMedian (chanData img 0) : ℚ) : ℝ),
   ((listPercentile 25 (chanData img 0) : ℚ) : ℝ),
   ((listPercentile 75 (chanData img 0) : ℚ) : ℝ),
   ((listMeanQ (chanData img 1) : ℚ) : ℝ),
   listStd (chanData img 1),
   ((listMedian (chanData img 1) : ℚ) : ℝ),
   ((listPercentile 25 (chanData img 1) : ℚ) : ℝ),
   ((listPercentile 75 (chanData img 1) : ℚ) : ℝ),
   ((listMeanQ (chanData img 2) : ℚ) : ℝ),
   listStd (chanData img 2),
   ((listMedian (chanData img 2) : ℚ) : ℝ),
   ((listPercentile 25 (chanData img 2) : ℚ) : ℝ),
   ((listPercentile 75 (chanData img 2) : ℚ) : ℝ),
   ((listMeanQ (grayImg img).flatten : ℚ) : ℝ),
   listStd (grayImg img).flatten,
   ((listMeanAbs (gradAxis0 (grayImg img)) : ℚ) : ℝ),
   ((listMeanAbs (gradAxis1 (grayImg img)) : ℚ) : ℝ)]

/-! ### Concrete inputs used by witnesses and counterexamples -/

/-- A trivial stand-in for `cv2.compareHist` where its value is irrelevant. -/
def cmp0 : List ℚ → List ℚ → ℚ := fun _ _ => 0

/-- The all-white 50×50 image of the spec's end-to-end scenario: every
grayscale pixel is 255, every HSV pixel is (0,0,255). -/
def img50w : DecodedImage :=
  { width := 50, height := 50
    gray := List.replicate 50 (List.replicate 50 255)
    hsv := List.replicate 2500 ⟨0, 0, 255⟩
    hist := [] }

/-- An all-white image at the minimum accepted size 100×100. -/
def img100w : DecodedImage :=
  { width := 100, height := 100
    gray := List.replicate 100 (List.replicate 100 255)
    hsv := List.replicate 10000 ⟨0, 0, 255⟩
    hist := [] }

/-- A one-pixel pure-green HSV buffer (hue 60, saturated, mid value). -/
def hsvGreen : List HSVPixel := [⟨60, 200, 100⟩]

/-- A 2×2 RGB test image. -/
def imgW4 : List (List (ℕ × ℕ × ℕ)) :=
  [[(0, 0, 0), (255, 255, 255)], [(10, 20, 30), (40, 50, 60)]]

/-- Environment in which the classifier artifact file does not exist. -/
def env0 : LoadEnv Unit := { artifactExists := false, joblibResult := none }

/-! ### Helper lemmas -/

/-- The entropy of the degenerate distribution `[1,0,0,0]` exceeds `-1`
(it equals `-log(1 + 1e-10)`, which is negative but tiny). -/
lemma entropy_degenerate_gt_neg_one : calculate_entropy [1, 0, 0, 0] > -1 := by
  have hlog : Real.log (1 + 1e-10) ≤ (1 + 1e-10) - 1 :=
    Real.log_le_sub_one_of_pos (by norm_num)
  have : calculate_entropy [1, 0, 0, 0] = -Real.log (1 + 1e-10) := by
    simp [calculate_entropy]
  rw [this]
  have : (1 + 1e-10 : ℝ) - 1 = 1e-10 := by ring
  rw [this] at hlog
  have : (1e-10 : ℝ) < 1 := by norm_num
  linarith

/-- The code's running-maximum fold (seeded with `-1.0`) is strictly below
`c` exactly when the seed and every folded value are. -/
lemma foldl_ifmax_lt {α : Type} (f : α → ℚ) (c : ℚ) :
    ∀ (l : List α) (a : ℚ),
      l.foldl (fun m r => if f r > m then f r else m) a < c
        ↔ a < c ∧ ∀ x ∈ l, f x < c := by
  intro l
  induction l with
  | nil => intro a; simp
  | cons x xs ih =>
    intro a
    simp only [List.foldl_cons, ih, List.mem_cons]
    constructor
    · rintro ⟨h1, h2⟩
      refine ⟨?_, ?_⟩
      · by_cases hx : f x > a
        · exact lt_trans hx (by rwa [if_pos hx] at h1)
        · rwa [if_neg hx] at h1
      · intro y hy
        rcases hy with rfl | hy
        · by_cases hx : f y > a
          · rwa [if_pos hx] at h1
          · exact lt_of_le_of_lt (not_lt.mp hx) (by rwa [if_neg hx] at h1)
        · exact h2 y hy
    · rintro ⟨ha, hall⟩
      refine ⟨?_, fun y hy => hall y (Or.inr hy)⟩
      by_cases hx : f x > a
      · rw [if_pos hx]; exact hall x (Or.inl rfl)
      · rwa [if_neg hx]

/-! ### Claim theorems -/

/-- C2: whenever the Shannon entropy `-Σ pᵢ·ln(pᵢ+1e-10)` of the
probability vector strictly exceeds the configured entropy threshold, the
outcome of the `safe_predict` uncertainty stage has status `Unknown`
rather than `Success`, and it still carries the full probability vector
and the entropy value. -/
theorem entropy_gate_unknown (fmt : ℝ → String) (class_names : List String)
    (feats probs : List ℝ) (entropy_thresh : ℝ)
    (h : calculate_entropy probs > entropy_thresh) :
    (safe_predict_tail fmt class_names feats probs entropy_thresh).status = "Unknown"
    ∧ (safe_predict_tail fmt class_names feats probs entropy_thresh).status ≠ "Success"
    ∧ (safe_predict_tail fmt class_names feats probs entropy_thresh).probabilities
        = some probs
    ∧ (safe_predict_tail fmt class_names feats probs entropy_thresh).entropy
        = some (calculate_entropy probs) := by
  simp only [safe_predict_tail]
  rw [if_pos h]
  refine ⟨rfl, by simp, rfl, rfl⟩

/-- Witness for C2: the degenerate vector `[1,0,0,0]` with threshold `-1`
(its entropy `-log(1+1e-10)` exceeds `-1`) yields an `Unknown` outcome
carrying the probabilities and the entropy. -/
theorem entropy_gate_unknown_witness :
    (safe_predict_tail (fun _ => "") ["HER2_0", "HER2_1+", "HER2_2+", "HER2_3+"]
        [] [1, 0, 0, 0] (-1)).status = "Unknown"
    ∧ (safe_predict_tail (fun _ => "") ["HER2_0", "HER2_1+", "HER2_2+", "HER2_3+"]
        [] [1, 0, 0, 0] (-1)).status ≠ "Success"
    ∧ (safe_predict_tail (fun _ => "") ["HER2_0", "HER2_1+", "HER2_2+", "HER2_3+"]
        [] [1, 0, 0, 0] (-1)).probabilities = some [1, 0, 0, 0]
    ∧ (safe_predict_tail (fun _ => "") ["HER2_0", "HER2_1+", "HER2_2+", "HER2_3+"]
        [] [1, 0, 0, 0] (-1)).entropy = some (calculate_entropy [1, 0, 0, 0]) :=
  entropy_gate_unknown (fun _ => "") ["HER2_0", "HER2_1+", "HER2_2+", "HER2_3+"]
    [] [1, 0, 0, 0] (-1) entropy_degenerate_gt_neg_one

/-- C4: on every RGB image (with the ≥2×2 extent `np.gradient` requires),
the feature extractor returns exactly 19 values, in the fixed order: per
channel 0,1,2 — mean, standard deviation, median, 25th percentile, 75th
percentile; then grayscale mean, grayscale standard deviation, mean
absolute gradient along axis 0, mean absolute gradient along axis 1. -/
theorem extract_features_order (img : List (List (ℕ × ℕ × ℕ)))
    (hrows : 2 ≤ img.length) (hcols : 2 ≤ (img.getD 0 []).length) :
    extract_features_from_pil img = featureContractList img
    ∧ (extract_features_from_pil img).length = 19 := by
  constructor
  · simp [extract_features_from_pil, featureContractList, channelStats,
      List.range_succ]
  · simp [extract_features_from_pil, channelStats, List.range_succ]

/-- Witness for C4 at a concrete 2×2 image. -/
theorem extract_features_order_witness :
    extract_features_from_pil imgW4 = featureContractList imgW4
    ∧ (extract_features_from_pil imgW4).length = 19 :=
  extract_features_order imgW4 (by decide) (by decide)

/-- C7: on every non-empty image whose hue values all lie strictly between
25 and 100 (outside both the hematoxylin band `(100,170)` and the DAB band
`[0,25) ∪ (160,180]`), the stain coverage ratio is 0, so the stain-profile
gate rejects whenever `stain_coverage_min > 0` — regardless of the
saturation and value channels. -/
theorem stain_gate_rejects_out_of_band (hsv : List HSVPixel) (min_stain_coverage : ℚ)
    (hne : hsv ≠ []) (hhue : ∀ p ∈ hsv, 25 < p.h ∧ p.h < 100)
    (hpos : 0 < min_stain_coverage) :
    stainRatio hsv = 0 ∧ (check_stain_profile hsv min_stain_coverage).1 = true := by
  have hcount : hsv.countP stainPixel = 0 := by
    rw [List.countP_eq_zero]
    intro p hp
    have hh := hhue p hp
    simp only [stainPixel, decide_eq_true_eq]
    omega
  have hratio : stainRatio hsv = 0 := by
    simp [stainRatio, hcount]
  refine ⟨hratio, ?_⟩
  simp only [check_stain_profile, hratio]
  rw [if_pos hpos]

/-- Witness for C7: a single saturated pure-green pixel (hue 60) is
rejected at the default 2% coverage threshold. -/
theorem stain_gate_rejects_out_of_band_witness :
    stainRatio hsvGreen = 0 ∧ (check_stain_profile hsvGreen (2/100)).1 = true :=
  stain_gate_rejects_out_of_band hsvGreen (2/100) (by decide) (by decide) (by norm_num)

/-- C8: the novelty gate passes every image when the reference corpus is
absent or empty; with a non-empty corpus (and correlation scores, which
are never below `-1`), it rejects exactly when the maximum similarity —
equivalently every similarity — is strictly below the threshold. -/
theorem histogram_gate_spec (cmp : List ℚ → List ℚ → ℚ) (target_hist : List ℚ)
    (threshold : ℚ) :
    check_histogram_similarity cmp none target_hist threshold = (false, none)
    ∧ check_histogram_similarity cmp (some []) target_hist threshold = (false, none)
    ∧ ∀ refs : List (List ℚ), refs ≠ [] → (∀ r ∈ refs, -1 ≤ cmp target_hist r) →
        ((check_histogram_similarity cmp (some refs) target_hist threshold).1 = true
          ↔ ∀ r ∈ refs, cmp target_hist r < threshold) := by
  refine ⟨rfl, rfl, ?_⟩
  intro refs hne hbound
  simp only [check_histogram_similarity]
  rw [if_neg (by simpa using hne)]
  have key := foldl_ifmax_lt (fun r => cmp target_hist r) threshold refs (-1)
  by_cases hm : refs.foldl
      (fun m r => if cmp target_hist r > m then cmp target_hist r else m) (-1)
        < threshold
  · rw [if_pos hm]
    simpa using (key.mp hm).2
  · rw [if_neg hm]
    simp only [Bool.false_eq_true, false_iff]
    intro hall
    obtain ⟨r0, hr0⟩ := List.exists_mem_of_ne_nil refs hne
    exact hm (key.mpr ⟨lt_of_le_of_lt (hbound r0 hr0) (hall r0 hr0), hall⟩)

/-- Witness for C8: with a one-histogram corpus and a constant similarity
of 1/2 against threshold 1, the gate rejects. -/
theorem histogram_gate_spec_witness :
    (check_histogram_similarity (fun _ _ => (1/2 : ℚ)) (some [[0]]) [] 1).1 = true :=
  ((histogram_gate_spec (fun _ _ => (1/2 : ℚ)) [] 1).2.2 [[0]]
    (by decide) (by intro r _; norm_num)).mpr (by intro r _; norm_num)

/-- C3: the gates run in the fixed order dimensions, whitespace, blur,
stain-profile, histogram-similarity: the names in the `checks` mapping are
always an in-order prefix of that gate order (so no gate after the failing
one receives an outcome), at most the last recorded check can have failed,
and on any rejection the report status is `rejected` and the `predict`
view never invokes the predictor (no feature extraction/classification). -/
theorem validator_gate_sequencing (cmp : List ℚ → List ℚ → ℚ)
    (references : Option (List (List ℚ))) (img : DecodedImage)
    (cfg : ValidatorConfig) {α : Type} (predictFn : DecodedImage → α) :
    (validate cmp references img cfg).checks.map Prod.fst
      = gateOrder.take (validate cmp references img cfg).checks.length
    ∧ ((validate cmp references img cfg).checks.dropLast.all
        (fun e => e.2.passed)) = true
    ∧ ((validate cmp references img cfg).is_valid = false →
        (validate cmp references img cfg).status = "rejected"
        ∧ (views_predict cmp references img cfg predictFn).2 = false) := by
  have hviews : (validate cmp references img cfg).is_valid = false →
      (views_predict cmp references img cfg predictFn).2 = false := by
    intro h
    simp [views_predict, h]
  refine ⟨?_, ?_, fun h => ⟨?_, hviews h⟩⟩
  · simp only [validate]
    split_ifs <;> simp [gateOrder]
  · simp only [validate]
    split_ifs <;> simp_all
  · revert h
    simp only [validate]
    split_ifs <;> simp

/-- Witness for C3: the undersized all-white image is rejected and the
predictor is never invoked. -/
theorem validator_gate_sequencing_witness :
    (validate cmp0 none img50w DEFAULT_CONFIG).status = "rejected"
    ∧ (views_predict cmp0 none img50w DEFAULT_CONFIG (fun _ => ())).2 = false :=
  (validator_gate_sequencing cmp0 none img50w DEFAULT_CONFIG (fun _ => ())).2.2
    (by decide)

/-- Counterexample to C10 as stated: on the undersized 50×50 image the
validator does return `is_valid = false`, but the `checks` mapping is
empty — the dimensions check is NOT identified by name in it (the code
returns before ever inserting the `dimensions` entry). -/
theorem dimension_failure_no_named_entry_cex :
    (validate cmp0 none img50w DEFAULT_CONFIG).is_valid = false
    ∧ (validate cmp0 none img50w DEFAULT_CONFIG).checks = []
    ∧ ¬ ("dimensions" ∈ (validate cmp0 none img50w DEFAULT_CONFIG).checks.map
          Prod.fst) := by
  refine ⟨by decide, by decide, ?_⟩
  intro h
  simp only [show (validate cmp0 none img50w DEFAULT_CONFIG).checks = []
    from by decide] at h
  simp at h

/-- C10 (amended): for every image below the minimum or above the maximum
dimensions, validation returns `is_valid = false` with status `rejected`
and a reason naming the measured size and the violated bound — regardless
of the image content — but with an empty `checks` mapping (no check is
identified by name). -/
theorem dimension_check_rejects (cmp : List ℚ → List ℚ → ℚ)
    (references : Option (List (List ℚ))) (img : DecodedImage)
    (cfg : ValidatorConfig) :
    (img.width < MIN_WIDTH ∨ img.height < MIN_HEIGHT →
      validate cmp references img cfg =
        { is_valid := false, status := "rejected"
          reason := some ("Image too small (" ++ toString img.width ++ "x"
            ++ toString img.height ++ "). Minimum: " ++ toString MIN_WIDTH ++ "x"
            ++ toString MIN_HEIGHT)
          confidence := 0, checks := [] })
    ∧ (¬(img.width < MIN_WIDTH ∨ img.height < MIN_HEIGHT) →
        (img.width > MAX_WIDTH ∨ img.height > MAX_HEIGHT) →
        validate cmp references img cfg =
          { is_valid := false, status := "rejected"
            reason := some ("Image too large (" ++ toString img.width ++ "x"
              ++ toString img.height ++ "). Maximum: " ++ toString MAX_WIDTH ++ "x"
              ++ toString MAX_HEIGHT)
            confidence := 0, checks := [] }) := by
  constructor
  · intro h
    simp only [validate]
    rw [if_pos h]
  · intro h1 h2
    simp only [validate]
    rw [if_neg h1, if_pos h2]

/-- Witness for C10 (amended) at the 50×50 image. -/
theorem dimension_check_rejects_witness :
    validate cmp0 none img50w DEFAULT_CONFIG =
      { is_valid := false, status := "rejected"
        reason := some ("Image too small (" ++ toString img50w.width ++ "x"
          ++ toString img50w.height ++ "). Minimum: " ++ toString MIN_WIDTH ++ "x"
          ++ toString MIN_HEIGHT)
        confidence := 0, checks := [] } :=
  (dimension_check_rejects cmp0 none img50w DEFAULT_CONFIG).1 (by decide)

/-- Counterexample to C6 as stated: with the artifact file absent, the
first `_load_model` call fails with the file-not-found (model unavailable)
error and leaves `_model_data` unset, so the second call attempts the
artifact load AGAIN (the attempted-load flag is `true`, not `false`): the
failure is not cached. -/
theorem load_failure_not_cached_cex :
    (load_model env0 none).2.2 = some .fileNotFound
    ∧ (load_model env0 none).1 = none
    ∧ (load_model env0 (load_model env0 none).1).2.1 = true
    ∧ (load_model env0 (load_model env0 none).1).2.2 = some .fileNotFound := by
  decide

/-- C6 (amended): the artifact load is skipped only once a load has
succeeded in setting the model data (on a set state `_load_model` returns
without attempting any load); after a failed first attempt with the
artifact missing, the state stays unset and every later call re-attempts
the load, failing with the same distinct model-unavailable
(file-not-found) error while the artifact remains missing. -/
theorem load_model_caching (M : Type) (env : LoadEnv M) (d : Option M)
    (h : env.artifactExists = false) :
    load_model env (some d) = (some d, false, none)
    ∧ load_model env none = (none, true, some .fileNotFound)
    ∧ load_model env (load_model env none).1 = (none, true, some .fileNotFound) := by
  refine ⟨rfl, ?_, ?_⟩ <;> simp [load_model, h]

/-- Witness for C6 (amended) in the concrete missing-artifact environment. -/
theorem load_model_caching_witness :
    load_model env0 (some (some ())) = (some (some ()), false, none)
    ∧ load_model env0 none = (none, true, some .fileNotFound)
    ∧ load_model env0 (load_model env0 none).1 = (none, true, some .fileNotFound) :=
  load_model_caching Unit env0 (some ()) rfl

/-! ### Evaluation lemmas for the all-white images -/

/-- Rounding half-to-even fixes natural numbers. -/
lemma rndHE_natCast (n : ℕ) : rndHE (n : ℚ) = n := by
  simp [rndHE]

/-- Flattening `n` copies of an `m`-element constant row. -/
lemma flatten_replicate_replicate (n m a : ℕ) :
    (List.replicate n (List.replicate m a)).flatten = List.replicate (n * m) a := by
  induction n with
  | zero => simp
  | succ k ih =>
    rw [List.replicate_succ, List.flatten_cons, ih, ← List.replicate_add]
    congr 1
    ring

/-- `countP` on a constant list. -/
lemma countP_replicate (n a : ℕ) (p : ℕ → Bool) :
    (List.replicate n a).countP p = if p a then n else 0 := by
  induction n with
  | zero => simp
  | succ k ih => cases hp : p a <;> simp [List.replicate_succ, List.countP_cons, ih, hp]

/-- `fmtPercent1` renders the ratio 1 as Python `{1.0:.1%}` does. -/
lemma fmtPercent1_one : fmtPercent1 1 = "100.0%" := by
  simp only [fmtPercent1, fmtFixed]
  rw [show (1 * 100 : ℚ) * ((10 ^ 1 : ℕ) : ℚ) = ((1000 : ℕ) : ℚ) by norm_num,
    rndHE_natCast]
  decide

/-- `fmtPercent0` renders the threshold 0.95 as Python `{0.95:.0%}` does. -/
lemma fmtPercent0_ninety_five : fmtPercent0 (95/100) = "95%" := by
  simp only [fmtPercent0, fmtFixed]
  rw [show (95 / 100 * 100 : ℚ) * ((10 ^ 0 : ℕ) : ℚ) = ((95 : ℕ) : ℚ) by norm_num,
    rndHE_natCast]
  decide

/-- The whitespace check on the all-white 100×100 buffer: every pixel is
bright, the ratio is 1 (> 0.95), and the reason reads `100.0% > 95%`. -/
lemma check_whitespace_allwhite :
    check_whitespace img100w.gray (95/100)
      = (true, some "Too much whitespace (100.0% > 95%)") := by
  have hflat : img100w.gray.flatten = List.replicate 10000 (255 : ℕ) := by
    show (List.replicate 100 (List.replicate 100 (255 : ℕ))).flatten = _
    rw [flatten_replicate_replicate]
  have hcount : (List.replicate 10000 (255 : ℕ)).countP (fun px => px > 220) = 10000 := by
    rw [countP_replicate]
    decide
  simp only [check_whitespace, hflat, hcount, List.length_replicate]
  rw [if_pos (by norm_num : ((10000 : ℕ) : ℚ) / ((10000 : ℕ) : ℚ) > 95/100)]
  rw [show ((10000 : ℕ) : ℚ) / ((10000 : ℕ) : ℚ) = 1 by norm_num, fmtPercent1_one,
    fmtPercent0_ninety_five]
  rfl

/-- Counterexample to C5 as stated: the 50×50 all-white image is rejected
by the DIMENSION check (reason `Image too small (50x50). Minimum:
100x100`), the whitespace gate never records an outcome, and the reason
does not contain `100.0%`. -/
theorem allwhite_50_dimension_cex :
    (validate cmp0 none img50w DEFAULT_CONFIG).reason
      = some "Image too small (50x50). Minimum: 100x100"
    ∧ ¬ ("whitespace" ∈ (validate cmp0 none img50w DEFAULT_CONFIG).checks.map
          Prod.fst)
    ∧ ¬ ("100.0%".data <:+: "Image too small (50x50). Minimum: 100x100".data) := by
  refine ⟨by decide, ?_, by decide⟩
  intro h
  simp only [show (validate cmp0 none img50w DEFAULT_CONFIG).checks = []
    from by decide] at h
  simp at h

/-- C5 (amended): a 50×50 all-white image is rejected at the dimension
check with a reason naming the measured size, while an all-white image at
the minimum accepted size 100×100 is rejected at the whitespace gate with
a reason containing `100.0%`. -/
theorem allwhite_whitespace_rejection :
    (validate cmp0 none img50w DEFAULT_CONFIG).reason
      = some "Image too small (50x50). Minimum: 100x100"
    ∧ validate cmp0 none img100w DEFAULT_CONFIG =
      { is_valid := false, status := "rejected"
        reason := some "Too much whitespace (100.0% > 95%)"
        confidence := 0
        checks := [("dimensions",
            { passed := true, reason := none, value := some "100x100" }),
          ("whitespace",
            { passed := false
              reason := some "Too much whitespace (100.0% > 95%)"
              value := none })] }
    ∧ ("100.0%".data <:+: "Too much whitespace (100.0% > 95%)".data) := by
  refine ⟨by decide, ?_, by decide⟩
  simp only [validate, DEFAULT_CONFIG]
  rw [if_neg (by decide), if_neg (by decide), check_whitespace_allwhite]
  decide

end MedxAI
